import Mathlib

/-!
Shallow embedding of the account-security subsystem of the auth-service
(`src/services/auth-service/src/auth/auth_service.py`,
`src/services/auth-service/src/utils/audit_logger.py`,
`src/services/auth-service/src/models/user_model.py`,
`src/services/auth-service/src/auth/routes.py`).

Modelling conventions:
* `datetime` values become `Nat` (seconds since epoch); `timedelta(minutes=m)`
  becomes `m * 60` seconds.  Python compares with `>` / `$gt`, which becomes
  `now < t` here.
* The MongoDB `users` collection becomes a `List UserDoc` in insertion order;
  `find_one` is the first match, `update_one` by `_id` rewrites the matching
  document(s) (`_id` is unique in the store).
* External collaborators (`password_utils`, `jwt_utils`, `secrets`) are not
  part of the service's source; they are passed in as a `Collab` record of
  functions, and the freshly generated reset token is an explicit argument.
* An audit write (`AuditLogger.log_event` -> `insert_one`) may fail at the
  store.  The source has no try/except around it, so a failing write raises
  through the calling operation.  Each operation therefore returns
  `Except Unit result × AuthState`: `.error ()` is a propagated store
  exception, and the returned state holds every mutation performed before
  the raise.  The boolean `auditOk` says whether the single audit write the
  operation performs succeeds.
-/

/-- One element of a user's `password_reset_tokens` array
(`PasswordResetToken` in `user_model.py`, built in `request_password_reset`). -/
structure ResetTokenDoc where
  token : String
  created_at : Nat
  expires_at : Nat
  used : Bool
deriving DecidableEq, Repr

/-- One audit-log document, as written by `AuditLogger.log_event`. -/
structure AuditEvent where
  event_type : String
  username : String
  timestamp : Nat
  ip_address : Option String
  success : Bool
  details : Option String
deriving DecidableEq, Repr

/-- A stored user document (`user_dict` in `create_user` / `UserInDB`). -/
structure UserDoc where
  id : Nat
  username : String
  email : String
  full_name : Option String
  hashed_password : String
  is_active : Bool
  role : String
  failed_login_attempts : Nat
  locked_until : Option Nat
  password_reset_tokens : List ResetTokenDoc
  created_at : Nat
  last_login : Option Nat
  last_activity : Option Nat
deriving DecidableEq, Repr

/-- The persistent state the service touches: the `users` collection and the
`audit_logs` collection (in insertion order). -/
structure AuthState where
  users : List UserDoc
  audit : List AuditEvent
deriving DecidableEq, Repr

/-- External collaborators of `AuthService` (password hashing and strength
validation from `password_utils`, token issuance from `jwt_utils`).  They are
consumed capabilities, not reimplemented. -/
structure Collab where
  verify_password : String → String → Bool
  hash_password : String → String
  validate_password_strength : String → Bool × String
  create_access_token : String → String → String
  get_token_expiry : Nat

/-- `AuthService.MAX_LOGIN_ATTEMPTS`. -/
def MAX_LOGIN_ATTEMPTS : Nat := 5

/-- `AuthService.LOCKOUT_DURATION_MINUTES`, in minutes. -/
def LOCKOUT_DURATION_MINUTES : Nat := 15

/-- `AuthService.PASSWORD_RESET_TOKEN_EXPIRY_MINUTES`, in minutes. -/
def PASSWORD_RESET_TOKEN_EXPIRY_MINUTES : Nat := 30

/-- `users_collection.find_one({"username": username})`. -/
def find_one_username (users : List UserDoc) (username : String) : Option UserDoc :=
  users.find? (fun d => d.username == username)

/-- `users_collection.find_one({"email": email})`. -/
def find_one_email (users : List UserDoc) (email : String) : Option UserDoc :=
  users.find? (fun d => d.email == email)

/-- `users_collection.update_one({"_id": i}, ...)`: rewrite the document with
`_id = i` by `f` (`_id` is unique in the store, so at most one document is
textually affected in any well-formed state). -/
def update_user (users : List UserDoc) (i : Nat) (f : UserDoc → UserDoc) : List UserDoc :=
  users.map (fun d => if d.id == i then f d else d)

/-- `AuditLogger.log_event`: append one audit document.  The underlying
`insert_one` may fail (`ok = false`); the source wraps it in no handler, so
the failure raises to the caller and the log is left unchanged. -/
def log_event (ok : Bool) (log : List AuditEvent) (e : AuditEvent) :
    Except Unit (List AuditEvent) :=
  if ok then .ok (log ++ [e]) else .error ()

/-- The success payload of `authenticate_user` (token fields plus the
`UserResponse`-visible part of the document the handler was holding). -/
structure AuthSuccess where
  access_token : String
  token_type : String
  expires_in : Nat
  user_id : Nat
  user_name : String
deriving DecidableEq, Repr

/-- Result dictionary of `AuthService.authenticate_user`:
`{"success": False, "error": e}` or the success dictionary. -/
inductive AuthResult where
  | failure (error : String)
  | success (s : AuthSuccess)
deriving DecidableEq, Repr

/-- `authenticate_user` from the password-verification step on (source lines
137-192), applied to the user document as it stands after the lock check:
wrong password increments the counter and locks at the threshold, a correct
password is then gated on `is_active`, and the active path stamps
`last_login`/`last_activity`, resets the counter and issues a token. -/
def authenticate_verify (c : Collab) (now : Nat) (auditOk : Bool)
    (st : AuthState) (user : UserDoc) (password : String) :
    Except Unit AuthResult × AuthState :=
  if c.verify_password password user.hashed_password then
    if user.is_active then
      let users := update_user st.users user.id (fun d =>
        { d with last_login := some now, last_activity := some now,
                 failed_login_attempts := 0 })
      let tok := c.create_access_token user.username (toString user.id)
      match log_event auditOk st.audit
          ⟨"login_success", user.username, now, none, true, none⟩ with
      | .error _ => (.error (), { st with users })
      | .ok audit =>
          (.ok (.success ⟨tok, "bearer", c.get_token_expiry, user.id, user.username⟩),
           { users := users, audit := audit })
    else
      match log_event auditOk st.audit
          ⟨"login_attempt_inactive", user.username, now, none, false,
           some "Account is inactive"⟩ with
      | .error _ => (.error (), st)
      | .ok audit => (.ok (.failure "Account is deactivated"), { st with audit })
  else
    let n := user.failed_login_attempts + 1
    let locks := decide (MAX_LOGIN_ATTEMPTS ≤ n)
    let ev : AuditEvent :=
      if locks then
        ⟨"account_locked", user.username, now, none, false,
         some ("Account locked after " ++ toString n ++ " failed attempts")⟩
      else
        ⟨"failed_login", user.username, now, none, false,
         some ("Failed attempt " ++ toString n ++ "/" ++ toString MAX_LOGIN_ATTEMPTS)⟩
    match log_event auditOk st.audit ev with
    | .error _ => (.error (), st)
    | .ok audit =>
        let users := update_user st.users user.id (fun d =>
          if locks then
            { d with failed_login_attempts := n,
                     locked_until := some (now + LOCKOUT_DURATION_MINUTES * 60) }
          else
            { d with failed_login_attempts := n })
        (.ok (.failure "Invalid username or password"), { users := users, audit := audit })

/-- `AuthService.authenticate_user`: user lookup, lock check with lazy
expiry, then `authenticate_verify`. -/
def authenticate_user (c : Collab) (now : Nat) (auditOk : Bool)
    (st : AuthState) (username password : String) :
    Except Unit AuthResult × AuthState :=
  match find_one_username st.users username with
  | none =>
      match log_event auditOk st.audit
          ⟨"failed_login", username, now, none, false, some "User not found"⟩ with
      | .error _ => (.error (), st)
      | .ok audit => (.ok (.failure "Invalid username or password"), { st with audit })
  | some user0 =>
      match user0.locked_until with
      | some lu =>
          if now < lu then
            let rem := (lu - now) / 60
            match log_event auditOk st.audit
                ⟨"login_attempt_locked", username, now, none, false,
                 some ("Account locked for " ++ toString rem ++ " minutes")⟩ with
            | .error _ => (.error (), st)
            | .ok audit =>
                (.ok (.failure ("Account is locked. Try again in " ++ toString rem
                      ++ " minutes")),
                 { st with audit })
          else
            let users := update_user st.users user0.id (fun d =>
              { d with locked_until := none, failed_login_attempts := 0 })
            let user := { user0 with locked_until := none, failed_login_attempts := 0 }
            authenticate_verify c now auditOk { st with users } user password
      | none => authenticate_verify c now auditOk st user0 password

/-- Result dictionary of `AuthService.request_password_reset`.  The source
returns `{"success": True, "message": ...}` when the email is unknown and
additionally a `"reset_token"` key when it exists, so the token field is an
`Option`: `none` models the absent key. -/
structure ResetRequestResult where
  success : Bool
  message : String
  reset_token : Option String
deriving DecidableEq, Repr

/-- `AuthService.request_password_reset`.  `freshTok` is the value produced
by `secrets.token_urlsafe(32)` (an external randomness capability). -/
def request_password_reset (now : Nat) (auditOk : Bool) (st : AuthState)
    (email : String) (freshTok : String) :
    Except Unit ResetRequestResult × AuthState :=
  match find_one_email st.users email with
  | none =>
      match log_event auditOk st.audit
          ⟨"password_reset_requested", "unknown", now, none, false,
           some ("Email " ++ email ++ " not found")⟩ with
      | .error _ => (.error (), st)
      | .ok audit =>
          (.ok ⟨true, "If email exists, reset link will be sent", none⟩,
           { st with audit })
  | some user =>
      let tokenDoc : ResetTokenDoc :=
        ⟨freshTok, now, now + PASSWORD_RESET_TOKEN_EXPIRY_MINUTES * 60, false⟩
      let users := update_user st.users user.id (fun d =>
        { d with password_reset_tokens := d.password_reset_tokens ++ [tokenDoc] })
      match log_event auditOk st.audit
          ⟨"password_reset_requested", user.username, now, none, true, none⟩ with
      | .error _ => (.error (), { st with users })
      | .ok audit =>
          (.ok ⟨true, "If email exists, reset link will be sent", some freshTok⟩,
           { users := users, audit := audit })

/-- The `forgot_password` route handler's response body (`routes.py`):
`{"message": ..., "reset_token": result.get("reset_token")}`. -/
def forgot_password (now : Nat) (auditOk : Bool) (st : AuthState)
    (email : String) (freshTok : String) :
    Except Unit (String × Option String) × AuthState :=
  match request_password_reset now auditOk st email freshTok with
  | (.error e, st2) => (.error e, st2)
  | (.ok r, st2) => (.ok (r.message, r.reset_token), st2)

/-- The `$elemMatch` predicate of `reset_password`'s `find_one`: the array
element carries the presented token, is unused, and is unexpired. -/
def token_matches (now : Nat) (tok : String) (t : ResetTokenDoc) : Bool :=
  t.token == tok && t.used == false && now < t.expires_at

/-- `find_one({"password_reset_tokens": {"$elemMatch": ...}})`: the first
user holding a live element for the presented token. -/
def find_user_with_token (users : List UserDoc) (now : Nat) (tok : String) :
    Option UserDoc :=
  users.find? (fun d => d.password_reset_tokens.any (token_matches now tok))

/-- Result dictionary of `AuthService.reset_password`. -/
inductive ResetResult where
  | success (message : String)
  | failure (error : String)
deriving DecidableEq, Repr

/-- `AuthService.reset_password`: strength gate, token lookup, then one
update that sets the new hash, clears lockout state, and `$pull`s every
array element whose `token` equals the presented one. -/
def reset_password (c : Collab) (now : Nat) (auditOk : Bool) (st : AuthState)
    (token new_password : String) : Except Unit ResetResult × AuthState :=
  let v := c.validate_password_strength new_password
  if !v.1 then (.ok (.failure v.2), st)
  else
    match find_user_with_token st.users now token with
    | none =>
        match log_event auditOk st.audit
            ⟨"password_reset_failed", "unknown", now, none, false,
             some "Invalid or expired reset token"⟩ with
        | .error _ => (.error (), st)
        | .ok audit =>
            (.ok (.failure "Invalid or expired reset token"), { st with audit })
    | some user =>
        let hashed := c.hash_password new_password
        let users := update_user st.users user.id (fun d =>
          { d with hashed_password := hashed,
                   failed_login_attempts := 0,
                   locked_until := none,
                   password_reset_tokens :=
                     d.password_reset_tokens.filter (fun t => !(t.token == token)) })
        match log_event auditOk st.audit
            ⟨"password_reset_success", user.username, now, none, true, none⟩ with
        | .error _ => (.error (), { st with users })
        | .ok audit =>
            (.ok (.success
                "Password reset successfully. Please login with your new password"),
             { users := users, audit := audit })

/-- `n` consecutive `authenticate_user` calls with the same credentials,
each applied to the state the previous one left behind (audit writes
succeeding). -/
def attempts (c : Collab) (now : Nat) (st : AuthState)
    (username password : String) : Nat → AuthState
  | 0 => st
  | n + 1 =>
      (authenticate_user c now true (attempts c now st username password n)
        username password).2

/-- `res` is sorted by timestamp, most recent first (non-increasing). -/
def sortedByTimestampDesc : List AuditEvent → Bool
  | [] => true
  | [_] => true
  | a :: b :: rest => (b.timestamp ≤ a.timestamp : Bool) && sortedByTimestampDesc (b :: rest)

/-- `AuditLogger.get_user_events` runs
`find({"username": username}).sort("timestamp", -1).limit(limit)`.
MongoDB guarantees only the sort key's order: documents with equal
`timestamp` may come back in any order (there is no secondary sort key and
the documents carry no sequence number).  The query is therefore modelled as
a relation: `res` is a possible result iff it is the `limit`-prefix of some
timestamp-descending arrangement of the user's events. -/
def possibleQueryResult (log : List AuditEvent) (username : String)
    (limit : Nat) (res : List AuditEvent) : Prop :=
  ∃ ordered : List AuditEvent,
    (log.filter (fun e => e.username == username)).Perm ordered ∧
    sortedByTimestampDesc ordered = true ∧
    res = ordered.take limit

/-! ### Concrete collaborators and fixtures for witnesses and counterexamples -/

/-- A concrete instantiation of the external collaborators: hashing is an
injective tag, verification compares against it (a stand-in for bcrypt's
`hash`/`verify` contract), and strength validation checks the documented
minimum length. -/
def demoCollab : Collab where
  verify_password := fun p h => h == "H:" ++ p
  hash_password := fun p => "H:" ++ p
  validate_password_strength := fun p =>
    (decide (8 ≤ p.length), "Password must be at least 8 characters long")
  create_access_token := fun sub uid => "jwt:" ++ sub ++ ":" ++ uid
  get_token_expiry := 1800

/-- A registered, active, unlocked user. -/
def alice : UserDoc where
  id := 1
  username := "alice"
  email := "alice@example.com"
  full_name := some "Alice A"
  hashed_password := "H:Str0ngPass!"
  is_active := true
  role := "user"
  failed_login_attempts := 0
  locked_until := none
  password_reset_tokens := []
  created_at := 0
  last_login := none
  last_activity := none

/-- `alice` mid-lockout: `locked_until` strictly in the future of `now = 0`. -/
def lockedAlice : UserDoc :=
  { alice with failed_login_attempts := 5, locked_until := some 10000 }

/-- An inactive user with three failed attempts and an already-expired lock. -/
def dora : UserDoc where
  id := 2
  username := "dora"
  email := "dora@example.com"
  full_name := none
  hashed_password := "H:DoraPass9!"
  is_active := false
  role := "user"
  failed_login_attempts := 3
  locked_until := some 5
  password_reset_tokens := []
  created_at := 0
  last_login := none
  last_activity := none

/-- Two audit events for the same user carrying the same timestamp. -/
def evA : AuditEvent := ⟨"failed_login", "alice", 50, none, false, some "first"⟩

/-- Second equal-timestamp event for `alice` (see `evA`). -/
def evB : AuditEvent := ⟨"login_success", "alice", 50, none, true, some "second"⟩

/-! ### Helper lemmas about the store operations -/

/-- A lookup by username still finds the same (rewritten) document after an
`update_one` keyed by that document's `_id`, provided the update does not
touch the `username` field. -/
theorem find_one_username_update (users : List UserDoc) (name : String)
    (u : UserDoc) (f : UserDoc → UserDoc)
    (hf : ∀ d, (f d).username = d.username) :
    find_one_username users name = some u →
    find_one_username (update_user users u.id f) name = some (f u) := by
  induction users with
  | nil => intro h; simp [find_one_username] at h
  | cons d rest ih =>
      intro h
      rw [find_one_username, List.find?_cons] at h
      rw [find_one_username, update_user, List.map_cons, List.find?_cons]
      cases hd : d.username == name with
      | true =>
          rw [hd] at h
          replace h : some d = some u := h
          injection h with h
          subst h
          simp only [beq_self_eq_true, if_true]
          rw [hf d, hd]
      | false =>
          rw [hd] at h
          replace h : find_one_username rest name = some u := h
          have hgu : ((if (d.id == u.id) = true then f d else d).username == name) = false := by
            by_cases hid : (d.id == u.id) = true
            · simp [hid, hf d, hd]
            · simp [hid, hd]
          rw [hgu]
          exact ih h

/-- `update_one` rewrites exactly the documents carrying the keyed `_id` and
leaves every other document untouched, pointwise over the collection. -/
theorem update_user_frame (users : List UserDoc) (i : Nat) (f : UserDoc → UserDoc) :
    List.Forall₂ (fun d d2 => d2 = if d.id == i then f d else d) users
      (update_user users i f) := by
  induction users with
  | nil => exact List.Forall₂.nil
  | cons d rest ih => exact List.Forall₂.cons rfl ih

/-! ### Claim theorems -/

/-- C1: a wrong-password attempt that brings the failed-attempt counter to 5
locks the account until `now + 15` minutes, and while `locked_until` lies in
the future every attempt — with any password whatsoever — returns the
`Locked` error carrying the remaining minutes, leaving the users collection
untouched. -/
theorem C1_fifth_failure_locks_and_lock_rejects_all :
    (∀ (c : Collab) (now : Nat) (st : AuthState) (username password : String)
       (u : UserDoc),
      find_one_username st.users username = some u →
      u.locked_until = none →
      u.failed_login_attempts = MAX_LOGIN_ATTEMPTS - 1 →
      c.verify_password password u.hashed_password = false →
      (authenticate_user c now true st username password).1 =
        .ok (.failure "Invalid username or password") ∧
      find_one_username (authenticate_user c now true st username password).2.users
          username =
        some { u with failed_login_attempts := MAX_LOGIN_ATTEMPTS,
                      locked_until := some (now + LOCKOUT_DURATION_MINUTES * 60) }) ∧
    (∀ (c : Collab) (now : Nat) (st : AuthState) (username password : String)
       (u : UserDoc) (lu : Nat),
      find_one_username st.users username = some u →
      u.locked_until = some lu →
      now < lu →
      (authenticate_user c now true st username password).1 =
        .ok (.failure ("Account is locked. Try again in "
          ++ toString ((lu - now) / 60) ++ " minutes")) ∧
      (authenticate_user c now true st username password).2.users = st.users) := by
  constructor
  · intro c now st username password u hfind hlock hfail hverify
    have hn : u.failed_login_attempts + 1 = MAX_LOGIN_ATTEMPTS := by
      rw [hfail]; rfl
    have hdec : decide (MAX_LOGIN_ATTEMPTS ≤ u.failed_login_attempts + 1) = true := by
      rw [hn]; decide
    have hupd := find_one_username_update st.users username u
        (fun d => { d with
          failed_login_attempts := u.failed_login_attempts + 1,
          locked_until := some (now + LOCKOUT_DURATION_MINUTES * 60) })
        (fun d => rfl) hfind
    simp only [authenticate_user, hfind, hlock, authenticate_verify, hverify,
      Bool.false_eq_true, if_false, hdec, log_event, if_true]
    refine ⟨by trivial, ?_⟩
    rw [← hn]
    exact hupd
  · intro c now st username password u lu hfind hlock hnow
    simp only [authenticate_user, hfind, hlock, if_pos hnow, log_event, if_true]
    exact ⟨by trivial, by trivial⟩

/-- Every branch of the post-lock-check part of `authenticate_user` performs
an audit write, so a failing audit store makes it raise. -/
theorem authenticate_verify_audit_fail (c : Collab) (now : Nat) (st : AuthState)
    (user : UserDoc) (password : String) :
    (authenticate_verify c now false st user password).1 = Except.error () := by
  rw [authenticate_verify]
  by_cases hv : c.verify_password password user.hashed_password = true
  · simp only [hv, if_true]
    by_cases ha : user.is_active = true
    · simp [ha, log_event]
    · simp [ha, log_event]
  · simp [hv, log_event]

/-- C3 counterexample: on the very same input, `authenticate_user` raises the
store error when the audit write fails and returns its normal result when the
audit write succeeds — the audit failure is not absorbed and the two results
differ. -/
theorem C3_counterexample :
    (authenticate_user demoCollab 0 false ⟨[], []⟩ "alice" "pw").1 =
      Except.error () ∧
    (authenticate_user demoCollab 0 true ⟨[], []⟩ "alice" "pw").1 =
      Except.ok (AuthResult.failure "Invalid username or password") ∧
    (authenticate_user demoCollab 0 false ⟨[], []⟩ "alice" "pw").1 ≠
      (authenticate_user demoCollab 0 true ⟨[], []⟩ "alice" "pw").1 := by
  refine ⟨rfl, rfl, ?_⟩
  intro h
  exact Except.noConfusion h

/-- C3 amended: an audit-log append failure is not absorbed — it propagates
out of the triggering operation.  `authenticate_user` performs exactly one
audit write on every branch, so with a failing audit store it always raises;
`reset_password` raises on every branch past the strength gate, and
`request_password_reset` always raises. -/
theorem C3_audit_failure_propagates :
    (∀ (c : Collab) (now : Nat) (st : AuthState) (username password : String),
      (authenticate_user c now false st username password).1 = Except.error ()) ∧
    (∀ (c : Collab) (now : Nat) (st : AuthState) (token new_password : String),
      (c.validate_password_strength new_password).1 = true →
      (reset_password c now false st token new_password).1 = Except.error ()) ∧
    (∀ (now : Nat) (st : AuthState) (email freshTok : String),
      (request_password_reset now false st email freshTok).1 = Except.error ()) := by
  refine ⟨?_, ?_, ?_⟩
  · intro c now st username password
    cases hfind : find_one_username st.users username with
    | none => simp [authenticate_user, hfind, log_event]
    | some u =>
        cases hlock : u.locked_until with
        | none =>
            simp only [authenticate_user, hfind, hlock]
            exact authenticate_verify_audit_fail ..
        | some lu =>
            by_cases hnow : now < lu
            · simp [authenticate_user, hfind, hlock, hnow, log_event]
            · simp only [authenticate_user, hfind, hlock, if_neg hnow]
              exact authenticate_verify_audit_fail ..
  · intro c now st token new_password hval
    cases hfind : find_user_with_token st.users now token with
    | none => simp [reset_password, hval, hfind, log_event]
    | some u => simp [reset_password, hval, hfind, log_event]
  · intro now st email freshTok
    cases hfind : find_one_email st.users email with
    | none => simp [request_password_reset, hfind, log_event]
    | some u => simp [request_password_reset, hfind, log_event]

/-- C3 amended witness: concrete instances of the three propagation facts. -/
theorem C3_amended_witness :
    (authenticate_user demoCollab 0 false ⟨[alice], []⟩ "alice" "Str0ngPass!").1 =
      Except.error () ∧
    (reset_password demoCollab 0 false ⟨[alice], []⟩ "tok" "NewPass123!").1 =
      Except.error () ∧
    (request_password_reset 0 false ⟨[alice], []⟩ "alice@example.com" "FRESH").1 =
      Except.error () :=
  ⟨C3_audit_failure_propagates.1 demoCollab 0 ⟨[alice], []⟩ "alice" "Str0ngPass!",
   C3_audit_failure_propagates.2.1 demoCollab 0 ⟨[alice], []⟩ "tok" "NewPass123!"
     (by decide),
   C3_audit_failure_propagates.2.2 0 ⟨[alice], []⟩ "alice@example.com" "FRESH"⟩

/-- C5: a login attempt that finds `locked_until` at or before the current
time lazily clears the lock and zeroes the counter, and if the password is
correct and the account active the attempt succeeds, the stored account
ending with `failed_login_attempts = 0`, the lock cleared, and the login
timestamps stamped. -/
theorem C5_expired_lock_cleared_then_success :
    ∀ (c : Collab) (now : Nat) (st : AuthState) (username password : String)
      (u : UserDoc) (lu : Nat),
      find_one_username st.users username = some u →
      u.locked_until = some lu →
      lu ≤ now →
      c.verify_password password u.hashed_password = true →
      u.is_active = true →
      (authenticate_user c now true st username password).1 =
        .ok (.success ⟨c.create_access_token u.username (toString u.id), "bearer",
          c.get_token_expiry, u.id, u.username⟩) ∧
      find_one_username
          (authenticate_user c now true st username password).2.users username =
        some { u with locked_until := none, failed_login_attempts := 0,
                      last_login := some now, last_activity := some now } := by
  intro c now st username password u lu hfind hlock hle hverify hactive
  have hupd1 := find_one_username_update st.users username u
      (fun d => { d with locked_until := none, failed_login_attempts := 0 })
      (fun d => rfl) hfind
  have hupd2 := find_one_username_update _ username _
      (fun d => { d with last_login := some now, last_activity := some now,
                         failed_login_attempts := 0 })
      (fun d => rfl) hupd1
  simp only [authenticate_user, hfind, hlock, if_neg (Nat.not_lt.mpr hle),
    authenticate_verify, hverify, hactive, if_true, log_event]
  refine ⟨by trivial, ?_⟩
  simpa only [hactive] using hupd2

/-- C5 witness: expired-lock `alice` logs in with the correct password. -/
theorem C5_witness :
    (authenticate_user demoCollab 20000 true
        ⟨[{ alice with failed_login_attempts := 5, locked_until := some 10000 }], []⟩
        "alice" "Str0ngPass!").1 =
      .ok (.success ⟨"jwt:alice:1", "bearer", 1800, 1, "alice"⟩) ∧
    find_one_username (authenticate_user demoCollab 20000 true
        ⟨[{ alice with failed_login_attempts := 5, locked_until := some 10000 }], []⟩
        "alice" "Str0ngPass!").2.users "alice" =
      some { alice with locked_until := none, failed_login_attempts := 0,
                        last_login := some 20000, last_activity := some 20000 } :=
  C5_expired_lock_cleared_then_success demoCollab 20000
    ⟨[{ alice with failed_login_attempts := 5, locked_until := some 10000 }], []⟩
    "alice" "Str0ngPass!" { alice with failed_login_attempts := 5, locked_until := some 10000 }
    10000 rfl rfl (by decide) rfl rfl

/-- Invariant behind C6: starting from a zero counter and no lock, `k < 5`
consecutive wrong-password attempts leave the stored account exactly at
`failed_login_attempts = k` with everything else untouched. -/
theorem attempts_invariant (c : Collab) (now : Nat) (st : AuthState)
    (username password : String) (u : UserDoc) :
    find_one_username st.users username = some u →
    u.failed_login_attempts = 0 → u.locked_until = none →
    c.verify_password password u.hashed_password = false →
    ∀ k, k < MAX_LOGIN_ATTEMPTS →
      find_one_username (attempts c now st username password k).users username =
        some { u with failed_login_attempts := k } := by
  intro hfind h0 hlock hverify k
  induction k with
  | zero =>
      intro _
      rw [attempts]
      rw [show ({ u with failed_login_attempts := 0 } : UserDoc) = u from by
        rw [← h0]]
      exact hfind
  | succ k ih =>
      intro hk
      have hk5 : k < MAX_LOGIN_ATTEMPTS := Nat.lt_of_succ_lt hk
      have hfindk := ih hk5
      have hdec : decide (MAX_LOGIN_ATTEMPTS ≤ k + 1) = false := by
        simp [Nat.not_le, hk]
      have hupd := find_one_username_update
          (attempts c now st username password k).users username
          { u with failed_login_attempts := k }
          (fun d => { d with failed_login_attempts := k + 1 })
          (fun d => rfl) hfindk
      rw [attempts]
      simp only [authenticate_user, hfindk, hlock, authenticate_verify, hverify,
        Bool.false_eq_true, if_false, hdec, log_event, if_true]
      simpa only [hlock] using hupd

/-- C6: after `N < 5` consecutive wrong-password attempts from a fresh
counter, the stored account shows exactly `N` failed attempts and carries no
lock, so it may still attempt to log in. -/
theorem C6_below_threshold_counts_no_lock :
    ∀ (c : Collab) (now : Nat) (st : AuthState) (username password : String)
      (u : UserDoc) (N : Nat),
      N < MAX_LOGIN_ATTEMPTS →
      find_one_username st.users username = some u →
      u.failed_login_attempts = 0 → u.locked_until = none →
      c.verify_password password u.hashed_password = false →
      ∃ d, find_one_username (attempts c now st username password N).users username =
              some d ∧
        d.failed_login_attempts = N ∧ d.locked_until = none := by
  intro c now st username password u N hN hfind h0 hlock hverify
  exact ⟨{ u with failed_login_attempts := N },
    attempts_invariant c now st username password u hfind h0 hlock hverify N hN,
    rfl, hlock⟩

/-- C6 witness: three wrong passwords against fresh `alice` leave the
counter at 3 and no lock. -/
theorem C6_witness :
    ∃ d, find_one_username
        (attempts demoCollab 0 ⟨[alice], []⟩ "alice" "WrongPass1!" 3).users "alice" =
          some d ∧
      d.failed_login_attempts = 3 ∧ d.locked_until = none :=
  C6_below_threshold_counts_no_lock demoCollab 0 ⟨[alice], []⟩ "alice" "WrongPass1!"
    alice 3 (by decide) rfl rfl rfl (by decide)

/-- C4: the outward responses of `request_password_reset` (and of the
`forgot_password` route built on it) are distinguishable — for an existing
email the body carries the reset token, for an unknown email it does not, so
the caller learns whether the email exists.  This contradicts the route's own
documentation ("doesn't reveal if email exists"). -/
theorem C4_reset_request_reveals_existence :
    (request_password_reset 1000 true ⟨[alice], []⟩ "alice@example.com" "FRESH").1 =
      .ok ⟨true, "If email exists, reset link will be sent", some "FRESH"⟩ ∧
    (request_password_reset 1000 true ⟨[alice], []⟩ "bob@example.com" "FRESH").1 =
      .ok ⟨true, "If email exists, reset link will be sent", none⟩ ∧
    (forgot_password 1000 true ⟨[alice], []⟩ "alice@example.com" "FRESH").1 =
      .ok ("If email exists, reset link will be sent", some "FRESH") ∧
    (forgot_password 1000 true ⟨[alice], []⟩ "bob@example.com" "FRESH").1 =
      .ok ("If email exists, reset link will be sent", none) ∧
    (request_password_reset 1000 true ⟨[alice], []⟩ "alice@example.com" "FRESH").1 ≠
      (request_password_reset 1000 true ⟨[alice], []⟩ "bob@example.com" "FRESH").1 := by
  refine ⟨rfl, rfl, rfl, rfl, ?_⟩
  intro h
  have h2 := congrArg
    (fun x => match x with
      | Except.ok r => r.reset_token
      | Except.error _ => none) h
  replace h2 : some "FRESH" = (none : Option String) := h2
  exact Option.noConfusion h2

/-- C8 counterexample: the claim quantifies over every pair of attempts, but
a wrong-password attempt against a currently locked account returns the
`Locked` message, not "Invalid username or password", so the two error
results differ (and reveal that the username exists). -/
theorem C8_counterexample :
    demoCollab.verify_password "WrongPass1!" lockedAlice.hashed_password = false ∧
    (authenticate_user demoCollab 0 true ⟨[lockedAlice], []⟩ "alice" "WrongPass1!").1 =
      .ok (.failure "Account is locked. Try again in 166 minutes") ∧
    (authenticate_user demoCollab 0 true ⟨[lockedAlice], []⟩ "bob" "WrongPass1!").1 =
      .ok (.failure "Invalid username or password") ∧
    (authenticate_user demoCollab 0 true ⟨[lockedAlice], []⟩ "alice" "WrongPass1!").1 ≠
      (authenticate_user demoCollab 0 true ⟨[lockedAlice], []⟩ "bob" "WrongPass1!").1 := by
  refine ⟨rfl, rfl, rfl, ?_⟩
  intro h
  have h2 := congrArg
    (fun x => match x with
      | Except.ok (AuthResult.failure e) => e
      | _ => "") h
  replace h2 : "Account is locked. Try again in 166 minutes" =
      "Invalid username or password" := h2
  exact absurd h2 (by decide)

/-- C8 amended: for every unknown-username attempt and every wrong-password
attempt against an existing account that is not currently locked
(`locked_until` unset or already expired), `authenticate_user` returns the
identical `{"success": False, "error": "Invalid username or password"}`
result, never revealing which of the two failed. -/
theorem C8_unknown_user_and_wrong_password_identical :
    ∀ (c : Collab) (now : Nat) (st1 st2 : AuthState)
      (name1 name2 password1 password2 : String) (u : UserDoc),
      find_one_username st1.users name1 = none →
      find_one_username st2.users name2 = some u →
      (∀ lu, u.locked_until = some lu → lu ≤ now) →
      c.verify_password password2 u.hashed_password = false →
      (authenticate_user c now true st1 name1 password1).1 =
        .ok (.failure "Invalid username or password") ∧
      (authenticate_user c now true st2 name2 password2).1 =
        .ok (.failure "Invalid username or password") := by
  intro c now st1 st2 name1 name2 password1 password2 u hmiss hfind hnl hverify
  constructor
  · simp [authenticate_user, hmiss, log_event]
  · cases hlock : u.locked_until with
    | none =>
        simp [authenticate_user, hfind, hlock, authenticate_verify, hverify,
          log_event]
    | some lu =>
        have hle := hnl lu hlock
        simp [authenticate_user, hfind, hlock, if_neg (Nat.not_lt.mpr hle),
          authenticate_verify, hverify, log_event]

/-- C8 amended witness: unknown `bob` and wrong-password `alice` receive the
same error. -/
theorem C8_amended_witness :
    (authenticate_user demoCollab 0 true ⟨[alice], []⟩ "bob" "whatever").1 =
      .ok (.failure "Invalid username or password") ∧
    (authenticate_user demoCollab 0 true ⟨[alice], []⟩ "alice" "WrongPass1!").1 =
      .ok (.failure "Invalid username or password") :=
  C8_unknown_user_and_wrong_password_identical demoCollab 0 ⟨[alice], []⟩
    ⟨[alice], []⟩ "bob" "alice" "whatever" "WrongPass1!" alice rfl rfl
    (fun lu h => Option.noConfusion h) (by decide)

/-- C10 counterexample: on an inactive account whose lock has expired, a
correct-password attempt does return the Inactive error, but the call also
rewrites the stored account (lazy lock expiry resets the counter from 3 to 0
and clears `locked_until`), contradicting "without resetting the counter ...
or changing any other field". -/
theorem C10_counterexample :
    demoCollab.verify_password "DoraPass9!" dora.hashed_password = true ∧
    dora.is_active = false ∧
    dora.failed_login_attempts = 3 ∧
    (authenticate_user demoCollab 1000 true ⟨[dora], []⟩ "dora" "DoraPass9!").1 =
      .ok (.failure "Account is deactivated") ∧
    (authenticate_user demoCollab 1000 true ⟨[dora], []⟩ "dora" "DoraPass9!").2.users =
      [{ dora with failed_login_attempts := 0, locked_until := none }] ∧
    (authenticate_user demoCollab 1000 true ⟨[dora], []⟩ "dora" "DoraPass9!").2.users ≠
      [dora] := by
  refine ⟨rfl, rfl, rfl, rfl, rfl, ?_⟩
  intro h
  have h2 := congrArg (fun l => (l.headD dora).failed_login_attempts) h
  replace h2 : (0 : Nat) = 3 := h2
  exact absurd h2 (by decide)

/-- C10 amended: on an inactive account carrying no lock, the active check
runs only after password verification — a wrong password increments the
counter and locks at the threshold by the same formula as for an active
account, while a correct password yields the Inactive error with the users
collection left untouched. -/
theorem C10_inactive_checked_after_password :
    ∀ (c : Collab) (now : Nat) (st : AuthState) (username password : String)
      (u : UserDoc),
      find_one_username st.users username = some u →
      u.is_active = false →
      u.locked_until = none →
      (c.verify_password password u.hashed_password = false →
        (authenticate_user c now true st username password).1 =
          .ok (.failure "Invalid username or password") ∧
        find_one_username
            (authenticate_user c now true st username password).2.users username =
          some { u with
            failed_login_attempts := u.failed_login_attempts + 1,
            locked_until := if MAX_LOGIN_ATTEMPTS ≤ u.failed_login_attempts + 1
              then some (now + LOCKOUT_DURATION_MINUTES * 60) else none }) ∧
      (c.verify_password password u.hashed_password = true →
        (authenticate_user c now true st username password).1 =
          .ok (.failure "Account is deactivated") ∧
        (authenticate_user c now true st username password).2.users = st.users) := by
  intro c now st username password u hfind hinactive hlock
  constructor
  · intro hverify
    by_cases hth : MAX_LOGIN_ATTEMPTS ≤ u.failed_login_attempts + 1
    · have hdec : decide (MAX_LOGIN_ATTEMPTS ≤ u.failed_login_attempts + 1) = true :=
        decide_eq_true hth
      have hupd := find_one_username_update st.users username u
          (fun d => { d with
            failed_login_attempts := u.failed_login_attempts + 1,
            locked_until := some (now + LOCKOUT_DURATION_MINUTES * 60) })
          (fun d => rfl) hfind
      simp only [authenticate_user, hfind, hlock, authenticate_verify, hverify,
        Bool.false_eq_true, if_false, hdec, log_event, if_true, if_pos hth]
      exact ⟨by trivial, hupd⟩
    · have hdec : decide (MAX_LOGIN_ATTEMPTS ≤ u.failed_login_attempts + 1) = false :=
        decide_eq_false hth
      have hupd := find_one_username_update st.users username u
          (fun d => { d with failed_login_attempts := u.failed_login_attempts + 1 })
          (fun d => rfl) hfind
      simp only [authenticate_user, hfind, hlock, authenticate_verify, hverify,
        Bool.false_eq_true, if_false, hdec, log_event, if_true, if_neg hth]
      exact ⟨by trivial, by simpa only [hlock] using hupd⟩
  · intro hverify
    simp only [authenticate_user, hfind, hlock, authenticate_verify, hverify,
      hinactive, Bool.false_eq_true, if_false, if_true, log_event]
    exact ⟨by trivial, by trivial⟩

/-- C10 amended witness: inactive, unlocked `dora` — a wrong password raises
the counter from 3 to 4, the correct password yields the Inactive error and
leaves the collection untouched. -/
theorem C10_amended_witness :
    ((authenticate_user demoCollab 1000 true
        ⟨[{ dora with locked_until := none }], []⟩ "dora" "WrongPass1!").1 =
      .ok (.failure "Invalid username or password") ∧
     find_one_username (authenticate_user demoCollab 1000 true
        ⟨[{ dora with locked_until := none }], []⟩ "dora" "WrongPass1!").2.users
        "dora" =
      some { dora with failed_login_attempts := 4, locked_until := none }) ∧
    ((authenticate_user demoCollab 1000 true
        ⟨[{ dora with locked_until := none }], []⟩ "dora" "DoraPass9!").1 =
      .ok (.failure "Account is deactivated") ∧
     (authenticate_user demoCollab 1000 true
        ⟨[{ dora with locked_until := none }], []⟩ "dora" "DoraPass9!").2.users =
      [{ dora with locked_until := none }]) :=
  ⟨(C10_inactive_checked_after_password demoCollab 1000
      ⟨[{ dora with locked_until := none }], []⟩ "dora" "WrongPass1!"
      { dora with locked_until := none } rfl rfl rfl).1 (by decide),
   (C10_inactive_checked_after_password demoCollab 1000
      ⟨[{ dora with locked_until := none }], []⟩ "dora" "DoraPass9!"
      { dora with locked_until := none } rfl rfl rfl).2 (by decide)⟩

/-- A prefix of a timestamp-descending list is timestamp-descending. -/
theorem sortedByTimestampDesc_take :
    ∀ (n : Nat) (l : List AuditEvent), sortedByTimestampDesc l = true →
      sortedByTimestampDesc (l.take n) = true := by
  intro n l
  induction l generalizing n with
  | nil => intro _; cases n <;> rfl
  | cons a rest ih =>
      intro h
      cases n with
      | zero => rfl
      | succ m =>
          cases rest with
          | nil => cases m <;> rfl
          | cons b rest2 =>
              cases m with
              | zero => rfl
              | succ p =>
                  simp only [sortedByTimestampDesc, Bool.and_eq_true] at h
                  show sortedByTimestampDesc (a :: b :: List.take p rest2) = true
                  simp only [sortedByTimestampDesc, Bool.and_eq_true]
                  exact ⟨h.1, ih (p + 1) h.2⟩

/-- C9 counterexample: the audit documents carry no sequence number and the
query sorts on `timestamp` alone, so two equal-timestamp events of the same
user admit two different query results — the result is not the unique order
a monotonic tie-break would impose. -/
theorem C9_counterexample :
    possibleQueryResult [evA, evB] "alice" 2 [evA, evB] ∧
    possibleQueryResult [evA, evB] "alice" 2 [evB, evA] ∧
    ([evA, evB] : List AuditEvent) ≠ [evB, evA] := by
  refine ⟨⟨[evA, evB], ?_, by decide, rfl⟩, ⟨[evB, evA], ?_, by decide, rfl⟩, by decide⟩
  · exact List.Perm.refl _
  · exact List.Perm.swap evB evA []

/-- C9 amended: every possible result of `get_user_events` holds only the
queried user's events, is ordered most-recent-first by timestamp, and has at
most `limit` entries; equal-timestamp events come back in an unspecified
order (the schema has no sequence number to break ties). -/
theorem C9_query_filters_sorts_truncates :
    ∀ (log : List AuditEvent) (username : String) (limit : Nat)
      (res : List AuditEvent),
      possibleQueryResult log username limit res →
      (∀ e ∈ res, e.username = username ∧ e ∈ log) ∧
      sortedByTimestampDesc res = true ∧
      res.length ≤ limit := by
  intro log username limit res hres
  obtain ⟨ordered, hperm, hsort, hres⟩ := hres
  subst hres
  refine ⟨?_, sortedByTimestampDesc_take limit ordered hsort, ?_⟩
  · intro e he
    have he2 : e ∈ ordered := List.take_subset limit ordered he
    have he3 : e ∈ log.filter (fun x => x.username == username) :=
      (hperm.mem_iff).mpr he2
    have he4 := List.mem_filter.mp he3
    exact ⟨by simpa using he4.2, he4.1⟩
  · exact List.length_take_le limit ordered

/-- C9 amended witness: the two-event log instantiates the query contract. -/
theorem C9_amended_witness :
    (∀ e ∈ ([evA, evB] : List AuditEvent), e.username = "alice" ∧ e ∈ [evA, evB]) ∧
    sortedByTimestampDesc [evA, evB] = true ∧
    ([evA, evB] : List AuditEvent).length ≤ 2 :=
  C9_query_filters_sorts_truncates [evA, evB] "alice" 2 [evA, evB]
    ⟨[evA, evB], List.Perm.refl _, by decide, rfl⟩

/-- C2: a reset token is redeemable at most once.  When token `t` is held by
a single account (as issuance's cryptographic randomness guarantees), a
successful `reset_password` removes it, and a second `reset_password`
presenting the same token — at any later time, with any valid new password —
fails with the generic `InvalidOrExpiredToken` error and leaves the users
collection exactly as the first call left it. -/
theorem C2_reset_token_redeemed_at_most_once :
    ∀ (c : Collab) (now now2 : Nat) (st : AuthState) (t pw pw2 : String)
      (u : UserDoc),
      (c.validate_password_strength pw).1 = true →
      (c.validate_password_strength pw2).1 = true →
      find_user_with_token st.users now t = some u →
      (∀ d ∈ st.users, ∀ tk ∈ d.password_reset_tokens, tk.token = t → d.id = u.id) →
      (reset_password c now true st t pw).1 =
        .ok (.success
          "Password reset successfully. Please login with your new password") ∧
      (reset_password c now2 true (reset_password c now true st t pw).2 t pw2).1 =
        .ok (.failure "Invalid or expired reset token") ∧
      (reset_password c now2 true (reset_password c now true st t pw).2 t pw2).2.users =
        (reset_password c now true st t pw).2.users := by
  intro c now now2 st t pw pw2 u hval1 hval2 hfind huniq
  have hstep1 :
      (reset_password c now true st t pw).1 =
        .ok (.success
          "Password reset successfully. Please login with your new password") ∧
      (reset_password c now true st t pw).2.users =
        update_user st.users u.id (fun d =>
          { d with hashed_password := c.hash_password pw,
                   failed_login_attempts := 0,
                   locked_until := none,
                   password_reset_tokens :=
                     d.password_reset_tokens.filter (fun tk => !(tk.token == t)) }) := by
    simp only [reset_password, hval1, Bool.not_true, Bool.false_eq_true, if_false,
      hfind, log_event, if_true]
    exact ⟨by trivial, by trivial⟩
  have hnone : find_user_with_token (reset_password c now true st t pw).2.users now2 t
      = none := by
    rw [hstep1.2]
    rw [find_user_with_token, List.find?_eq_none]
    intro d2 hd2 hany
    obtain ⟨d, hd, hd2eq⟩ := List.mem_map.mp hd2
    obtain ⟨tk, htk, hmatch⟩ := List.any_eq_true.mp hany
    simp only [token_matches, Bool.and_eq_true, beq_iff_eq, decide_eq_true_eq]
      at hmatch
    have htok : tk.token = t := by tauto
    by_cases hid : (d.id == u.id) = true
    · rw [if_pos hid] at hd2eq
      rw [← hd2eq] at htk
      have hkeep := (List.mem_filter.mp htk).2
      rw [htok, beq_self_eq_true] at hkeep
      exact Bool.noConfusion hkeep
    · rw [if_neg hid] at hd2eq
      rw [← hd2eq] at htk
      have hdu : d.id = u.id := huniq d hd tk htk htok
      rw [hdu, beq_self_eq_true] at hid
      exact hid rfl
  obtain ⟨st1, hst1⟩ : ∃ s, (reset_password c now true st t pw).2 = s := ⟨_, rfl⟩
  rw [hst1] at hnone ⊢
  refine ⟨hstep1.1, ?_, ?_⟩
  · simp only [reset_password, hval2, Bool.not_true, Bool.false_eq_true, if_false,
      hnone, log_event, if_true]
  · simp only [reset_password, hval2, Bool.not_true, Bool.false_eq_true, if_false,
      hnone, log_event, if_true]

/-- `alice` holding one outstanding reset token. -/
def aliceWithTok : UserDoc :=
  { alice with password_reset_tokens := [⟨"tokA", 0, 1800, false⟩] }

/-- C2 witness: `alice` redeems `tokA` once; presenting it again fails with
the generic message and changes no account. -/
theorem C2_witness :
    (reset_password demoCollab 100 true ⟨[aliceWithTok], []⟩ "tokA" "NewPass123!").1 =
      .ok (.success
        "Password reset successfully. Please login with your new password") ∧
    (reset_password demoCollab 200 true
        (reset_password demoCollab 100 true ⟨[aliceWithTok], []⟩ "tokA"
          "NewPass123!").2 "tokA" "NewPass456!").1 =
      .ok (.failure "Invalid or expired reset token") ∧
    (reset_password demoCollab 200 true
        (reset_password demoCollab 100 true ⟨[aliceWithTok], []⟩ "tokA"
          "NewPass123!").2 "tokA" "NewPass456!").2.users =
      (reset_password demoCollab 100 true ⟨[aliceWithTok], []⟩ "tokA"
        "NewPass123!").2.users :=
  C2_reset_token_redeemed_at_most_once demoCollab 100 200 ⟨[aliceWithTok], []⟩
    "tokA" "NewPass123!" "NewPass456!" aliceWithTok rfl rfl rfl (by decide)

/-- The first token issued to `aliceTwoToks`. -/
def tokA : ResetTokenDoc := ⟨"tokA", 0, 1800, false⟩

/-- The second, sibling token issued to `aliceTwoToks`. -/
def tokB : ResetTokenDoc := ⟨"tokB", 0, 1800, false⟩

/-- `alice` holding two outstanding reset tokens. -/
def aliceTwoToks : UserDoc :=
  { alice with password_reset_tokens := [tokA, tokB] }

/-- C7: issuing a reset token appends it to the owner's collection, leaving
every previously issued token of every account in place; redeeming token `t`
filters out only the elements carrying `t` on the matched account, leaves
every other account untouched, and any surviving sibling token (different
value, unused, unexpired) still redeems successfully afterwards. -/
theorem C7_sibling_tokens_unaffected :
    (∀ (now : Nat) (st : AuthState) (email freshTok : String) (u : UserDoc),
      find_one_email st.users email = some u →
      (request_password_reset now true st email freshTok).1 =
        .ok ⟨true, "If email exists, reset link will be sent", some freshTok⟩ ∧
      List.Forall₂ (fun d d2 =>
          d2.password_reset_tokens = d.password_reset_tokens ++
            (if d.id = u.id then
              [⟨freshTok, now, now + PASSWORD_RESET_TOKEN_EXPIRY_MINUTES * 60, false⟩]
             else []))
        st.users (request_password_reset now true st email freshTok).2.users) ∧
    (∀ (c : Collab) (now : Nat) (st : AuthState) (t pw : String) (u : UserDoc),
      (c.validate_password_strength pw).1 = true →
      find_user_with_token st.users now t = some u →
      (reset_password c now true st t pw).1 =
        .ok (.success
          "Password reset successfully. Please login with your new password") ∧
      List.Forall₂ (fun d d2 =>
          d2.password_reset_tokens =
            if d.id = u.id
            then d.password_reset_tokens.filter (fun tk => !(tk.token == t))
            else d.password_reset_tokens)
        st.users (reset_password c now true st t pw).2.users ∧
      (∀ (now2 : Nat) (pw2 : String) (s : ResetTokenDoc),
        s ∈ u.password_reset_tokens → s.token ≠ t → s.used = false →
        now2 < s.expires_at →
        (c.validate_password_strength pw2).1 = true →
        (reset_password c now2 true (reset_password c now true st t pw).2
            s.token pw2).1 =
          .ok (.success
            "Password reset successfully. Please login with your new password"))) := by
  constructor
  · intro now st email freshTok u hfind
    have hstate : (request_password_reset now true st email freshTok).2.users =
        update_user st.users u.id (fun d =>
          { d with password_reset_tokens := d.password_reset_tokens ++
              [⟨freshTok, now, now + PASSWORD_RESET_TOKEN_EXPIRY_MINUTES * 60,
                false⟩] }) := by
      simp only [request_password_reset, hfind, log_event, if_true]
    refine ⟨by simp [request_password_reset, hfind, log_event], ?_⟩
    rw [hstate]
    refine List.Forall₂.imp ?_ (update_user_frame st.users u.id _)
    intro d d2 hdd
    by_cases hid : (d.id == u.id) = true
    · rw [hdd, if_pos hid, if_pos (eq_of_beq hid)]
    · rw [hdd, if_neg hid, if_neg (fun he => hid (beq_iff_eq.mpr he)),
        List.append_nil]
  · intro c now st t pw u hval hfind
    have hstep1 :
        (reset_password c now true st t pw).1 =
          .ok (.success
            "Password reset successfully. Please login with your new password") ∧
        (reset_password c now true st t pw).2.users =
          update_user st.users u.id (fun d =>
            { d with hashed_password := c.hash_password pw,
                     failed_login_attempts := 0,
                     locked_until := none,
                     password_reset_tokens :=
                       d.password_reset_tokens.filter
                         (fun tk => !(tk.token == t)) }) := by
      simp only [reset_password, hval, Bool.not_true, Bool.false_eq_true, if_false,
        hfind, log_event, if_true]
      exact ⟨by trivial, by trivial⟩
    refine ⟨hstep1.1, ?_, ?_⟩
    · rw [hstep1.2]
      refine List.Forall₂.imp ?_ (update_user_frame st.users u.id _)
      intro d d2 hdd
      by_cases hid : (d.id == u.id) = true
      · rw [hdd, if_pos hid, if_pos (eq_of_beq hid)]
      · rw [hdd, if_neg hid, if_neg (fun he => hid (beq_iff_eq.mpr he))]
    · intro now2 pw2 s hs hneq hused hexp hval2
      have humem : u ∈ st.users := List.mem_of_find?_eq_some hfind
      have hmem2 : ({ u with
          hashed_password := c.hash_password pw,
          failed_login_attempts := 0,
          locked_until := none,
          password_reset_tokens :=
            u.password_reset_tokens.filter (fun tk => !(tk.token == t)) } : UserDoc)
          ∈ (reset_password c now true st t pw).2.users := by
        rw [hstep1.2]
        have hm := List.mem_map_of_mem
          (fun d => if (d.id == u.id) = true then
            ({ d with hashed_password := c.hash_password pw,
                      failed_login_attempts := 0, locked_until := none,
                      password_reset_tokens :=
                        d.password_reset_tokens.filter
                          (fun tk => !(tk.token == t)) } : UserDoc)
            else d) humem
        simpa [update_user, beq_self_eq_true] using hm
      have hs2 : s ∈ u.password_reset_tokens.filter (fun tk => !(tk.token == t)) :=
        List.mem_filter.mpr ⟨hs, by simp [hneq]⟩
      have hsome : ∃ x, x ∈ (reset_password c now true st t pw).2.users ∧
          (x.password_reset_tokens.any (token_matches now2 s.token)) = true :=
        ⟨_, hmem2, List.any_eq_true.mpr
          ⟨s, hs2, by simp [token_matches, hused, hexp]⟩⟩
      have hisSome :
          (find_user_with_token (reset_password c now true st t pw).2.users now2
            s.token).isSome := by
        rw [find_user_with_token]
        exact List.find?_isSome.mpr hsome
      obtain ⟨w, hw⟩ := Option.isSome_iff_exists.mp hisSome
      obtain ⟨st1, hst1⟩ : ∃ x, (reset_password c now true st t pw).2 = x := ⟨_, rfl⟩
      rw [hst1] at hw ⊢
      simp only [reset_password, hval2, Bool.not_true, Bool.false_eq_true, if_false,
        hw, log_event, if_true]

/-- C7 witness: issuing `FRESH` to `alice` acknowledges with the token, and
on a two-token `alice` redeeming `tokA` still lets `tokB` redeem. -/
theorem C7_witness :
    (request_password_reset 10 true ⟨[alice], []⟩ "alice@example.com" "FRESH").1 =
      .ok ⟨true, "If email exists, reset link will be sent", some "FRESH"⟩ ∧
    (reset_password demoCollab 100 true ⟨[aliceTwoToks], []⟩ "tokA"
        "NewPass123!").1 =
      .ok (.success
        "Password reset successfully. Please login with your new password") ∧
    (reset_password demoCollab 200 true
        (reset_password demoCollab 100 true ⟨[aliceTwoToks], []⟩ "tokA"
          "NewPass123!").2 "tokB" "NewPass456!").1 =
      .ok (.success
        "Password reset successfully. Please login with your new password") :=
  ⟨(C7_sibling_tokens_unaffected.1 10 ⟨[alice], []⟩ "alice@example.com" "FRESH"
      alice rfl).1,
   (C7_sibling_tokens_unaffected.2 demoCollab 100 ⟨[aliceTwoToks], []⟩ "tokA"
      "NewPass123!" aliceTwoToks rfl rfl).1,
   (C7_sibling_tokens_unaffected.2 demoCollab 100 ⟨[aliceTwoToks], []⟩ "tokA"
      "NewPass123!" aliceTwoToks rfl rfl).2.2 200 "NewPass456!" tokB (by decide)
      (by decide) rfl (by decide) rfl⟩

/-- C1 witness: with the demo collaborators, a fourth-failure `alice` locks
on the fifth wrong password, and a locked `alice` rejects even the correct
password with the remaining-minutes message. -/
theorem C1_witness :
    ((authenticate_user demoCollab 0 true
        ⟨[{ alice with failed_login_attempts := 4 }], []⟩ "alice" "nope").1 =
      .ok (.failure "Invalid username or password") ∧
     find_one_username (authenticate_user demoCollab 0 true
        ⟨[{ alice with failed_login_attempts := 4 }], []⟩ "alice" "nope").2.users
        "alice" =
      some { alice with failed_login_attempts := 5, locked_until := some 900 }) ∧
    ((authenticate_user demoCollab 0 true ⟨[lockedAlice], []⟩
        "alice" "Str0ngPass!").1 =
      .ok (.failure "Account is locked. Try again in 166 minutes") ∧
     (authenticate_user demoCollab 0 true ⟨[lockedAlice], []⟩
        "alice" "Str0ngPass!").2.users = [lockedAlice]) :=
  ⟨C1_fifth_failure_locks_and_lock_rejects_all.1 demoCollab 0
      ⟨[{ alice with failed_login_attempts := 4 }], []⟩ "alice" "nope"
      { alice with failed_login_attempts := 4 } rfl rfl rfl rfl,
   C1_fifth_failure_locks_and_lock_rejects_all.2 demoCollab 0
      ⟨[lockedAlice], []⟩ "alice" "Str0ngPass!" lockedAlice 10000 rfl rfl
      (by decide)⟩

